import Mathlib

/-!
# Verification of the slide-count / pagination engine (backend/pptx_builder)

This file gives a shallow embedding of the deterministic slide-counting,
pagination and slide-numbering logic of `backend/pptx_builder` (the files
`slide_counter.py`, `builder.py`, `utils.py` and `sections/*.py`) and proves
or refutes the frozen claims about it.

Embedding conventions:
* Python strings are embedded as `List Char`; the string primitives the code
  uses (`strip`, `split`, `lower`, substring search, `split(pat, 1)`) are
  defined below by structural recursion with Python's semantics.
* Vertical sizes are measured in inches in the source, and every constant
  that feeds a layout decision is a multiple of 0.01 inch; we embed lengths
  as natural numbers counting hundredths of an inch (0.5 becomes 50, the
  `y` cursor starts at 110, and so on).  The floating-point sums of the
  source are treated as exact, which is the intended reading of the spec.
* `constants.py` is not present under `src/` (only its importers are); the
  one numeric constant from it that feeds the core logic, `FOOTER_Y`, is
  a parameter `F` (in hundredths of an inch) of every definition that needs
  it, and localized labels are modelled by `tLabel` below.
* `estimate_text_height` works with fractional inches, so it alone is
  embedded over `ℚ`.
-/

namespace Pptx

/-- Characters of a Python string; all text processing below is over this. -/
abbrev Str := List Char

/-- Python `str.lstrip()` (leading whitespace removed). -/
def lstrip (s : Str) : Str := s.dropWhile Char.isWhitespace

/-- Python `str.strip()`: whitespace removed from both ends. -/
def strip (s : Str) : Str :=
  ((s.dropWhile Char.isWhitespace).reverse.dropWhile Char.isWhitespace).reverse

/-- Python `str.lower()` (ASCII case folding suffices for the marker and
keyword strings the code compares). -/
def lowerStr (s : Str) : Str := s.map Char.toLower

/-- Boolean "p is a prefix of s" (the inner step of Python substring search
`pat in text` and of `str.startswith`). -/
def isPre : Str → Str → Bool
  | [], _ => true
  | _ :: _, [] => false
  | a :: as, b :: bs => a = b && isPre as bs

/-- Index of the first occurrence of `pat` in `text`, if any: the semantics
of Python `text.find(pat)` / `pat in text` / `text.split(pat, 1)`. -/
def firstOcc (pat : Str) : Str → Option Nat
  | [] => if isPre pat [] then some 0 else none
  | c :: rest =>
    if isPre pat (c :: rest) then some 0
    else (firstOcc pat rest).map (· + 1)

/-- Python `pat in text`. -/
def containsSub (pat text : Str) : Bool := (firstOcc pat text).isSome

/-- Python `text.split(pat, 1)` when `pat` occurs: the part before the first
occurrence and the part after it. -/
def splitFirst (pat text : Str) : Option (Str × Str) :=
  (firstOcc pat text).map (fun p => (text.take p, text.drop (p + pat.length)))

/-- Python `str.split()` (split on whitespace runs, no empty parts). -/
def wordsAux (acc : Str) : Str → List Str
  | [] => if acc.isEmpty then [] else [acc.reverse]
  | c :: cs =>
    if c.isWhitespace then
      if acc.isEmpty then wordsAux [] cs else acc.reverse :: wordsAux [] cs
    else wordsAux (c :: acc) cs

/-- Python `str.split()` with no arguments. -/
def words (s : Str) : List Str := wordsAux [] s

/-- Python `s.replace(":", "")`. -/
def removeColons (s : Str) : Str := s.filter (fun c => c ≠ ':')

/-- Python `s.isdigit()` (restricted to ASCII digits, which is all the
slide/activity title patterns use). -/
def isdigitStr (s : Str) : Bool := !s.isEmpty && s.all Char.isDigit

/-- Everything after the first `':'` — Python `title.split(":", 1)[1]` in the
branch where `":" in title` holds. -/
def afterColon : Str → Str
  | [] => []
  | c :: cs => if c = ':' then cs else afterColon cs

/-- Truncation toward zero, the semantics of Python `int(x)` on a float. -/
def pyInt (q : ℚ) : ℤ := if 0 ≤ q then ⌊q⌋ else ⌈q⌉

/-- Embedding of `utils.estimate_text_height` over `ℚ`, as a function of the
length of `text` (the source only reads `len(text)`):
`chars_per_inch = 120 / (font_size / 10)`,
`chars_per_line = max(1, int(chars_per_inch * width))`,
`lines = ceil(len(text) / chars_per_line)`,
result `max(0.2, lines * (font_size / 72) * 1.2)`. -/
def estimate_text_height (textLen : ℕ) (font_size : ℤ) (width : ℚ) : ℚ :=
  let chars_per_inch : ℚ := 120 / ((font_size : ℚ) / 10)
  let chars_per_line : ℤ := max 1 (pyInt (chars_per_inch * width))
  let lines : ℤ := ⌈(textLen : ℚ) / (chars_per_line : ℚ)⌉
  let line_height : ℚ := ((font_size : ℚ) / 72) * (6 / 5)
  max (1 / 5) ((lines : ℚ) * line_height)

/-- The ordered facilitation marker list of `utils.extract_facilitation_content`. -/
def facilitationPatterns : List Str :=
  ["Facilitation notes:".toList, "Facilitation Notes:".toList,
   "FACILITATION NOTES:".toList, "Facilitator notes:".toList,
   "Facilitator guidance:".toList, "Facilitation tip:".toList,
   "Catatan fasilitasi:".toList, "Catatan Fasilitasi:".toList,
   "Panduan Fasilitator:".toList]

/-- The ordered learning-objective marker list of
`utils.extract_facilitation_content`. -/
def learningPatterns : List Str :=
  ["Learning Objective:".toList, "Learning Objectives:".toList,
   "LEARNING OBJECTIVES:".toList, "Success criteria:".toList,
   "Tujuan Pembelajaran:".toList, "Kriteria keberhasilan:".toList]

/-- The `for pattern in patterns: if pattern in text: ... break` loops of
`extract_facilitation_content`: the first pattern in list order that occurs
anywhere in `text` wins, and the text is split at that pattern's first
occurrence. -/
def tryPatterns : List Str → Str → Option (Str × Str)
  | [], _ => none
  | p :: ps, text =>
    match splitFirst p text with
    | some r => some r
    | none => tryPatterns ps text

/-- Embedding of `utils.extract_facilitation_content`: returns
`(clean_description, facilitation_notes, learning_objectives)`. -/
def extract_facilitation_content (text : Str) : Str × Str × Str :=
  let fac := tryPatterns facilitationPatterns text
  let cleanDescription : Str :=
    match fac with
    | some r => strip r.1
    | none => text
  let facilitationNotes : Str :=
    match fac with
    | some r => strip r.2
    | none => []
  let source := if facilitationNotes.isEmpty then text else cleanDescription
  let lear := tryPatterns learningPatterns source
  let cleanDescription2 : Str :=
    match lear with
    | some r => strip r.1
    | none => cleanDescription
  let learningObjectives : Str :=
    match lear with
    | some r => strip r.2
    | none => []
  (cleanDescription2, facilitationNotes, learningObjectives)

/-- Position of the earliest textual occurrence of any of the markers — the
splitting point the claim about marker extraction prescribes (spec wording:
"the first textual occurrence wins").  This is the claim's semantics, defined
for comparison with the source's `tryPatterns` order. -/
def earliestMarkerPos (pats : List Str) (text : Str) : Option ℕ :=
  (pats.filterMap (fun p => firstOcc p text)).min?

theorem isPre_append (p s t : Str) (h : isPre p s = true) : isPre p (s ++ t) = true := by
  induction p generalizing s with
  | nil => rfl
  | cons a as ih =>
    cases s with
    | nil => simp [isPre] at h
    | cons b bs =>
      simp only [isPre, Bool.and_eq_true, decide_eq_true_eq] at h ⊢
      exact ⟨h.1, ih bs h.2⟩

theorem firstOcc_le_length (pat s : Str) (i : ℕ) (h : firstOcc pat s = some i) :
    i ≤ s.length := by
  induction s generalizing i with
  | nil =>
    simp only [firstOcc] at h
    split at h
    · cases h; exact le_refl 0
    · cases h
  | cons c rest ih =>
    simp only [firstOcc] at h
    split at h
    · cases h; exact Nat.zero_le _
    · cases hr : firstOcc pat rest with
      | none => rw [hr] at h; cases h
      | some j =>
        rw [hr] at h
        simp only [Option.map_some'] at h
        cases h
        exact Nat.succ_le_succ (ih j hr)

theorem isPre_drop_of_firstOcc (pat s : Str) (i : ℕ) (h : firstOcc pat s = some i) :
    isPre pat (s.drop i) = true := by
  induction s generalizing i with
  | nil =>
    simp only [firstOcc] at h
    split at h
    · cases h; assumption
    · cases h
  | cons c rest ih =>
    simp only [firstOcc] at h
    split at h
    · cases h; assumption
    · cases hr : firstOcc pat rest with
      | none => rw [hr] at h; cases h
      | some j =>
        rw [hr] at h
        simp only [Option.map_some'] at h
        cases h
        exact ih j hr

theorem firstOcc_isSome_of_isPre_drop (pat s : Str) (i : ℕ)
    (h : isPre pat (s.drop i) = true) : (firstOcc pat s).isSome = true := by
  induction s generalizing i with
  | nil =>
    simp only [List.drop_nil] at h
    simp [firstOcc, h]
  | cons c rest ih =>
    simp only [firstOcc]
    split
    · rfl
    · cases i with
      | zero => simp_all
      | succ j =>
        simp only [List.drop_succ_cons] at h
        have := ih j h
        cases hr : firstOcc pat rest with
        | none => rw [hr] at this; cases this
        | some k => simp [hr]

theorem containsSub_of_within (pat s t : Str) (hst : s <:+: t)
    (h : containsSub pat s = true) : containsSub pat t = true := by
  obtain ⟨u, v, huv⟩ := hst
  unfold containsSub at h ⊢
  cases hocc : firstOcc pat s with
  | none => rw [hocc] at h; cases h
  | some i =>
    have hle : i ≤ s.length := firstOcc_le_length pat s i hocc
    have hpre : isPre pat (s.drop i) = true := isPre_drop_of_firstOcc pat s i hocc
    have hdrop : t.drop (u.length + i) = s.drop i ++ v := by
      rw [← huv, List.append_assoc, ← List.drop_drop, List.drop_left,
        List.drop_append_of_le_length hle]
    apply firstOcc_isSome_of_isPre_drop pat t (u.length + i)
    rw [hdrop]
    exact isPre_append _ _ _ hpre

theorem firstOcc_none_of_within (pat s t : Str) (hst : s <:+: t)
    (h : firstOcc pat t = none) : firstOcc pat s = none := by
  by_contra hne
  have hs : containsSub pat s = true := by
    unfold containsSub
    cases hocc : firstOcc pat s with
    | none => exact absurd hocc hne
    | some i => rfl
  have := containsSub_of_within pat s t hst hs
  unfold containsSub at this
  rw [h] at this
  cases this

theorem strip_within (s : Str) : strip s <:+: s := by
  refine ⟨s.takeWhile Char.isWhitespace,
    ((s.dropWhile Char.isWhitespace).reverse.takeWhile Char.isWhitespace).reverse, ?_⟩
  unfold strip
  conv_rhs => rw [← List.takeWhile_append_dropWhile (p := Char.isWhitespace) (l := s)]
  rw [List.append_assoc]
  congr 1
  rw [← List.reverse_append, List.takeWhile_append_dropWhile, List.reverse_reverse]

theorem take_within (s : Str) (n : ℕ) : s.take n <:+: s :=
  ⟨[], s.drop n, by simp⟩

theorem strip_take_within (s : Str) (n : ℕ) : strip (s.take n) <:+: s :=
  (strip_within (s.take n)).trans (take_within s n)

theorem tryPatterns_eq_none (ps : List Str) (text : Str)
    (h : ∀ q ∈ ps, firstOcc q text = none) : tryPatterns ps text = none := by
  induction ps with
  | nil => rfl
  | cons q qs ih =>
    simp only [tryPatterns, splitFirst, h q (List.mem_cons_self q qs), Option.map_none]
    exact ih (fun r hr => h r (List.mem_cons_of_mem q hr))

theorem tryPatterns_firstHit (ps₁ ps₂ : List Str) (p text : Str) (i : ℕ)
    (h₁ : ∀ q ∈ ps₁, firstOcc q text = none) (hp : firstOcc p text = some i) :
    tryPatterns (ps₁ ++ p :: ps₂) text =
      some (text.take i, text.drop (i + p.length)) := by
  induction ps₁ with
  | nil => simp [tryPatterns, splitFirst, hp]
  | cons q qs ih =>
    simp only [List.cons_append, tryPatterns, splitFirst,
      h₁ q (List.mem_cons_self q qs), Option.map_none]
    exact ih (fun r hr => h₁ r (List.mem_cons_of_mem q hr))

theorem tryPatterns_of_unique (ps : List Str) (M text : Str) (i : ℕ)
    (hM : M ∈ ps) (hocc : firstOcc M text = some i)
    (hothers : ∀ q ∈ ps, q ≠ M → firstOcc q text = none) :
    tryPatterns ps text = some (text.take i, text.drop (i + M.length)) := by
  induction ps with
  | nil => cases hM
  | cons q qs ih =>
    by_cases hq : q = M
    · subst hq
      simp [tryPatterns, splitFirst, hocc]
    · simp only [tryPatterns, splitFirst,
        hothers q (List.mem_cons_self q qs) hq, Option.map_none]
      have hM' : M ∈ qs := by
        cases List.mem_cons.mp hM with
        | inl h => exact absurd h.symm hq
        | inr h => exact h
      exact ih hM' (fun r hr hne => hothers r (List.mem_cons_of_mem q hr) hne)

/-- Input on which the marker-extraction order is visible: the text contains
`"Facilitator notes:"` at position 0 and `"Facilitation notes:"` at
position 22. -/
def exListOrder : Str := "Facilitator notes: A. Facilitation notes: B".toList

/-- C6 (counterexample): the earliest textual marker occurrence in
`exListOrder` is at position 0, so a split at the first textual occurrence
would return an empty before-part; `extract_facilitation_content` instead
splits at the later occurrence of the earlier-listed pattern and keeps
`"Facilitator notes: A."` as the before-part.  The claim that the earliest
occurrence wins regardless of pattern-list order is therefore false. -/
theorem C6_counterexample :
    earliestMarkerPos facilitationPatterns exListOrder = some 0 ∧
    (extract_facilitation_content exListOrder).1 = "Facilitator notes: A.".toList ∧
    (extract_facilitation_content exListOrder).1 ≠ strip (exListOrder.take 0) :=
  ⟨by decide, by decide, by decide⟩

/-- C6 (amended): `extract_facilitation_content` splits at the first
occurrence of the earliest-**listed** facilitation pattern that occurs
anywhere in the text (textual position only decides among occurrences of that
same pattern).  If `facilitationPatterns = ps₁ ++ p :: ps₂`, no pattern of
`ps₁` occurs in `text`, `p` first occurs at `i`, and no learning marker
occurs in `text`, the result is the split of `text` at `i`. -/
theorem C6_listed_order_wins (ps₁ ps₂ : List Str) (p text : Str) (i : ℕ)
    (hdecomp : facilitationPatterns = ps₁ ++ p :: ps₂)
    (h₁ : ∀ q ∈ ps₁, firstOcc q text = none)
    (hp : firstOcc p text = some i)
    (hl : ∀ q ∈ learningPatterns, firstOcc q text = none) :
    extract_facilitation_content text =
      (strip (text.take i), strip (text.drop (i + p.length)), []) := by
  have hfac : tryPatterns facilitationPatterns text =
      some (text.take i, text.drop (i + p.length)) := by
    rw [hdecomp]
    exact tryPatterns_firstHit ps₁ ps₂ p text i h₁ hp
  have hsource : ∀ s : Str, s <:+: text → tryPatterns learningPatterns s = none :=
    fun s hs =>
      tryPatterns_eq_none _ _ (fun q hq => firstOcc_none_of_within q s text hs (hl q hq))
  have h1 : tryPatterns learningPatterns text = none := hsource text ⟨[], [], by simp⟩
  have h2 : tryPatterns learningPatterns (strip (text.take i)) = none :=
    hsource _ (strip_take_within text i)
  cases he : (strip (text.drop (i + p.length))).isEmpty with
  | true => simp [extract_facilitation_content, hfac, he, h1]
  | false => simp [extract_facilitation_content, hfac, he, h2]

/-- C6 witness input: only the sixth-listed pattern occurs, at position 4. -/
def exC6w : Str := "See Facilitation tip: keep time".toList

/-- Witness for `C6_listed_order_wins` at a concrete input. -/
theorem C6_listed_order_wins_witness :
    extract_facilitation_content exC6w =
      (strip (exC6w.take 4),
       strip (exC6w.drop (4 + "Facilitation tip:".toList.length)), []) :=
  C6_listed_order_wins
    ["Facilitation notes:".toList, "Facilitation Notes:".toList,
     "FACILITATION NOTES:".toList, "Facilitator notes:".toList,
     "Facilitator guidance:".toList]
    ["Catatan fasilitasi:".toList, "Catatan Fasilitasi:".toList,
     "Panduan Fasilitator:".toList]
    "Facilitation tip:".toList exC6w 4 (by decide) (by decide) (by decide) (by decide)

/-- C7: marker extraction is deterministic.  (a) On a text containing no
facilitation and no learning marker, the result keeps the original text as
the before-part with empty extracted parts.  (b) On a text whose only marker
is the facilitation marker `M`, first occurring at position `P`, the result
is `before = strip (text[:P])` and `after = strip (text[P + len M:])`. -/
theorem C7_marker_extraction_deterministic :
    (∀ text : Str, (∀ q ∈ facilitationPatterns, firstOcc q text = none) →
      (∀ q ∈ learningPatterns, firstOcc q text = none) →
      extract_facilitation_content text = (text, [], [])) ∧
    (∀ (text M : Str) (P : ℕ), M ∈ facilitationPatterns →
      firstOcc M text = some P →
      (∀ q ∈ facilitationPatterns, q ≠ M → firstOcc q text = none) →
      (∀ q ∈ learningPatterns, firstOcc q text = none) →
      extract_facilitation_content text =
        (strip (text.take P), strip (text.drop (P + M.length)), [])) := by
  constructor
  · intro text hfacs hlearn
    have hfac : tryPatterns facilitationPatterns text = none :=
      tryPatterns_eq_none _ _ hfacs
    have hl : tryPatterns learningPatterns text = none :=
      tryPatterns_eq_none _ _ hlearn
    simp [extract_facilitation_content, hfac, hl]
  · intro text M P hM hocc hothers hlearn
    have hfac : tryPatterns facilitationPatterns text =
        some (text.take P, text.drop (P + M.length)) :=
      tryPatterns_of_unique facilitationPatterns M text P hM hocc hothers
    have hsource : ∀ s : Str, s <:+: text → tryPatterns learningPatterns s = none :=
      fun s hs =>
        tryPatterns_eq_none _ _
          (fun q hq => firstOcc_none_of_within q s text hs (hlearn q hq))
    have h1 : tryPatterns learningPatterns text = none := hsource text ⟨[], [], by simp⟩
    have h2 : tryPatterns learningPatterns (strip (text.take P)) = none :=
      hsource _ (strip_take_within text P)
    cases he : (strip (text.drop (P + M.length))).isEmpty with
    | true => simp [extract_facilitation_content, hfac, he, h1]
    | false => simp [extract_facilitation_content, hfac, he, h2]

/-- Witness for `C7_marker_extraction_deterministic` at concrete inputs:
a marker-free text, and a text whose only marker is
`"Facilitator guidance:"` at position 5. -/
theorem C7_marker_extraction_deterministic_witness :
    extract_facilitation_content "Plain description.".toList =
      ("Plain description.".toList, [], []) ∧
    extract_facilitation_content "Work. Facilitator guidance: pair up".toList =
      (strip ("Work. Facilitator guidance: pair up".toList.take 6),
       strip ("Work. Facilitator guidance: pair up".toList.drop
         (6 + "Facilitator guidance:".toList.length)), []) :=
  ⟨C7_marker_extraction_deterministic.1 "Plain description.".toList
      (by decide) (by decide),
   C7_marker_extraction_deterministic.2 "Work. Facilitator guidance: pair up".toList
      "Facilitator guidance:".toList 6 (by decide) (by decide) (by decide) (by decide)⟩

/-- C9: `estimate_text_height` is deterministic (it is a pure function of
the text length, font size and width) and monotonically non-decreasing in
the length of its text argument, for any fixed positive font size and any
width. -/
theorem C9_estimate_text_height_monotone (m n : ℕ) (font_size : ℤ) (width : ℚ)
    (hfs : 0 < font_size) (hmn : m ≤ n) :
    estimate_text_height m font_size width ≤ estimate_text_height n font_size width := by
  unfold estimate_text_height
  have hcpl : (0 : ℤ) < max 1 (pyInt (120 / ((font_size : ℚ) / 10) * width)) :=
    lt_of_lt_of_le Int.zero_lt_one (le_max_left _ _)
  have hcplQ : (0 : ℚ) < ((max 1 (pyInt (120 / ((font_size : ℚ) / 10) * width)) : ℤ) : ℚ) := by
    exact_mod_cast hcpl
  have hdiv : (m : ℚ) / ((max 1 (pyInt (120 / ((font_size : ℚ) / 10) * width)) : ℤ) : ℚ) ≤
      (n : ℚ) / ((max 1 (pyInt (120 / ((font_size : ℚ) / 10) * width)) : ℤ) : ℚ) := by
    apply div_le_div_of_nonneg_right _ (le_of_lt hcplQ)
    exact_mod_cast hmn
  have hlines := Int.ceil_le_ceil hdiv
  have hlh : (0 : ℚ) ≤ ((font_size : ℚ) / 72) * (6 / 5) := by
    apply mul_nonneg
    · apply div_nonneg _ (by norm_num)
      exact_mod_cast le_of_lt hfs
    · norm_num
  apply max_le_max le_rfl
  apply mul_le_mul_of_nonneg_right _ hlh
  exact_mod_cast hlines

/-- Embedding of `utils.clean_slide_title`: text after the first `":"` if a colon is
present; otherwise, with a leading `slide <digits>` pair stripped; otherwise
the trimmed input. -/
def clean_slide_title (title : Str) : Str :=
  if title.contains ':' then strip (afterColon title)
  else
    match words title with
    | p0 :: p1 :: rest =>
      if lowerStr p0 == "slide".toList && isdigitStr (removeColons p1) then
        strip (List.intercalate [' '] rest)
      else strip title
    | _ => strip title

/-- Decimal digit character. -/
def digitChar (n : ℕ) : Char := Char.ofNat (48 + n)

/-- Decimal rendering of a natural number (fuel-based so that it is
structural); used only to embed the counter's f-string agenda labels. -/
def natCharsAux : ℕ → ℕ → Str
  | 0, _ => []
  | fuel + 1, n =>
    if n < 10 then [digitChar n]
    else natCharsAux fuel (n / 10) ++ [digitChar (n % 10)]

/-- Decimal rendering of a natural number. -/
def natChars (n : ℕ) : Str := natCharsAux (n + 1) n

/-- Embedding of `localization.t`.  Modelled from the spec: `constants.py` (holding the
`LABELS` table) is not under `src/`; `t` returns
`LABELS.get(lang, {}).get(key, key)`, i.e. it falls back to the key itself
when the table has no entry, and per the spec (§6) labels only affect
displayed text, never counts, so the fallback is the faithful label model. -/
def tLabel (key : Str) : Str := key

/-- A question of an assessment idea (`exampleQuestions` entry). -/
structure Question where
  question : Str
  options : List Str
  correctAnswer : Str
  explanation : Str

/-- An `assessmentIdeas` entry. -/
structure AssessmentIdea where
  type : Str
  exampleQuestions : List Question

/-- An `activities` entry (the fields the counting/numbering logic reads). -/
structure Activity where
  title : Str
  description : Str

/-- A `slides` entry (the counting/numbering logic only reads its title). -/
structure ContentSlide where
  title : Str

/-- A `keyTerms` entry. -/
structure KeyTerm where
  term : Str
  definition : Str

/-- A `furtherReadings` entry. -/
structure FurtherReading where
  title : Str
  author : Str
  readingDescription : Str

/-- The defaulted view of the lesson content: every `content.get(key, [])`
in the source reads one of these fields. -/
structure LessonContent where
  title : Str
  slides : List ContentSlide
  activities : List Activity
  assessmentIdeas : List AssessmentIdea
  keyTerms : List KeyTerm
  furtherReadings : List FurtherReading
  learningOutcomes : List Str

/-- Python `"quiz" in idea.get("type", "").lower()`. -/
def quizTyped (idea : AssessmentIdea) : Bool :=
  containsSub "quiz".toList (lowerStr idea.type)

/-- Python `"discussion" in idea.get("type", "").lower()`. -/
def discussionTyped (idea : AssessmentIdea) : Bool :=
  containsSub "discussion".toList (lowerStr idea.type)

/-- Python `len([q for q in idea.get("exampleQuestions", []) if q.get("options")])`. -/
def optionedCount (idea : AssessmentIdea) : ℕ :=
  (idea.exampleQuestions.filter (fun q => !q.options.isEmpty)).length

/-- Number of example questions of an idea. -/
def questionCount (idea : AssessmentIdea) : ℕ :=
  idea.exampleQuestions.length

/-- The `quiz_count` of the agenda-building passes (`if "quiz" ... elif
"discussion"`): optioned questions of quiz-typed ideas. -/
def agendaQuizCount (ideas : List AssessmentIdea) : ℕ :=
  (ideas.map (fun i => if quizTyped i then optionedCount i else 0)).sum

/-- The `discussion_count` of the agenda-building passes; the `elif` means a
quiz-typed idea is never counted here even if also discussion-typed. -/
def agendaDiscussionCount (ideas : List AssessmentIdea) : ℕ :=
  (ideas.map (fun i =>
    if quizTyped i then 0
    else if discussionTyped i then questionCount i else 0)).sum

/-- The quiz pass of `calculate_total_slides` (lines 69–74) and the
`quiz_count` recomputed by the discussion/readings/facilitation builders:
two slides per optioned question of every quiz-typed idea, an independent
`if` (not an `elif`). -/
def totalQuizSlides (ideas : List AssessmentIdea) : ℕ :=
  (ideas.map (fun i => if quizTyped i then 2 * optionedCount i else 0)).sum

/-- The discussion pass of `calculate_total_slides` (lines 75–84): two
slides per question of every discussion-typed idea, unconditionally, an
independent `if` (not an `elif`). -/
def totalDiscussionSlides (ideas : List AssessmentIdea) : ℕ :=
  (ideas.map (fun i => if discussionTyped i then 2 * questionCount i else 0)).sum

/-- The `content_slides` agenda list of `calculate_total_slides`: titles
that are non-empty both before and after cleaning. -/
def counterContentTitles (c : LessonContent) : List Str :=
  c.slides.filterMap fun s =>
    if s.title.isEmpty then none
    else
      let t := clean_slide_title s.title
      if t.isEmpty then none else some t

/-- The `content_slides` agenda list of `create_agenda_slide`: titles that
are non-empty after cleaning. -/
def builderContentTitles (c : LessonContent) : List Str :=
  c.slides.filterMap fun s =>
    let t := clean_slide_title s.title
    if t.isEmpty then none else some t

/-- The `agenda_items` list built by `calculate_total_slides` (with its
literal English labels). -/
def counterAgendaItems (c : LessonContent) : List (Str × List Str) :=
  let contentSlides := counterContentTitles c
  let activities := c.activities.map (·.title)
  let quizCount := agendaQuizCount c.assessmentIdeas
  let discussionCount := agendaDiscussionCount c.assessmentIdeas
  let knowledgeItems : List Str :=
    (if 0 < quizCount then
      ["Quiz Questions (".toList ++ natChars quizCount ++ ")".toList] else []) ++
    (if 0 < discussionCount then
      ["Discussion Questions (".toList ++ natChars discussionCount ++ ")".toList] else [])
  [("Introduction".toList, ["Learning Outcomes".toList, "Key Terms & Concepts".toList])] ++
  (if contentSlides.isEmpty then [] else [("Main Content".toList, contentSlides)]) ++
  (if activities.isEmpty then [] else [("Activities".toList, activities)]) ++
  (if knowledgeItems.isEmpty then [] else [("Test Your Knowledge".toList, knowledgeItems)]) ++
  (if c.furtherReadings.isEmpty then []
   else [("Additional Resources".toList, ["Further Readings & Resources".toList])])

/-- The `agenda_items` list built by `create_agenda_slide` (labels via
`localization.t`, see `tLabel`). -/
def builderAgendaItems (c : LessonContent) : List (Str × List Str) :=
  let contentSlides := builderContentTitles c
  let activities := c.activities.map (·.title)
  let quizCount := agendaQuizCount c.assessmentIdeas
  let discussionCount := agendaDiscussionCount c.assessmentIdeas
  let knowledgeItems : List Str :=
    (if 0 < quizCount then [tLabel "quizQuestions".toList] else []) ++
    (if 0 < discussionCount then [tLabel "discussionQuestions".toList] else [])
  [(tLabel "introduction".toList,
    [tLabel "learningOutcomes".toList, tLabel "keyTerms".toList])] ++
  (if contentSlides.isEmpty then [] else [(tLabel "mainContent".toList, contentSlides)]) ++
  (if activities.isEmpty then [] else [(tLabel "activities".toList, activities)]) ++
  (if knowledgeItems.isEmpty then [] else [(tLabel "testYourKnowledge".toList, knowledgeItems)]) ++
  (if c.furtherReadings.isEmpty then []
   else [(tLabel "additionalResources".toList, [tLabel "furtherReadings".toList])])

/-- The agenda `total_height_needed`: each section costs `section_height = 0.5` plus
`item_height = 0.35` per item (in hundredths: 50 and 35). -/
def agendaTotalHeight (secs : List (Str × List Str)) : ℕ :=
  (secs.map (fun sec => 50 + 35 * sec.2.length)).sum

/-- Python `math.ceil(a / b)` for naturals with `b > 0`. -/
def ceilDiv (a b : ℕ) : ℕ := (a + b - 1) / b

/-- The `slides_needed` value as computed by `calculate_total_slides`
(`available_height = FOOTER_Y - 1.2`). -/
def counterAgendaSlides (F : ℕ) (c : LessonContent) : ℕ :=
  ceilDiv (agendaTotalHeight (counterAgendaItems c)) (F - 120)

/-- The `slides_needed` value as computed by `create_agenda_slide`. -/
def builderAgendaSlides (F : ℕ) (c : LessonContent) : ℕ :=
  ceilDiv (agendaTotalHeight (builderAgendaItems c)) (F - 120)

/-- Key-terms slides charged by the counter (and emitted by the builder):
`ceil(terms / 4)` when there are terms, via integer arithmetic
`(n + 4 - 1) // 4`. -/
def keyTermsSlideCount (c : LessonContent) : ℕ :=
  if c.keyTerms.isEmpty then 0 else (c.keyTerms.length + 4 - 1) / 4

/-- Reading slides: `ceil(readings / 2)` when there are readings. -/
def readingsSlideCount (c : LessonContent) : ℕ :=
  if c.furtherReadings.isEmpty then 0 else (c.furtherReadings.length + 2 - 1) / 2

/-- The three-pattern facilitation marker list of `calculate_total_slides`
(shorter than the nine-pattern list of the extraction utility). -/
def counterFacilitationPatterns : List Str :=
  ["Facilitation notes:".toList, "Facilitation Notes:".toList,
   "Facilitator notes:".toList]

/-- The `has_facilitation_notes` flag as computed by `calculate_total_slides`. -/
def counterHasFacilitationNotes (c : LessonContent) : Bool :=
  c.activities.any fun a =>
    counterFacilitationPatterns.any fun p => containsSub p a.description

/-- Embedding of `slide_counter.calculate_total_slides`, with `FOOTER_Y` as the
parameter `F` (hundredths of an inch). -/
def calculate_total_slides (F : ℕ) (c : LessonContent) : ℕ :=
  1 + counterAgendaSlides F c + 1 + keyTermsSlideCount c + c.slides.length
    + 2 * c.activities.length + totalQuizSlides c.assessmentIdeas
    + totalDiscussionSlides c.assessmentIdeas + readingsSlideCount c + 1
    + (if counterHasFacilitationNotes c then 1 else 0)

/-- Python `len([s for i, s in enumerate(content.get("slides", [])) if i != 1])`,
the content-slide count with list-index 1 excluded, used by every
section-offset formula. -/
def contentExceptSecond (c : LessonContent) : ℕ :=
  ((List.range c.slides.length).filter (fun i => i ≠ 1)).length

/-- The `slide_count_offset` of `create_activity_slides`. -/
def activitiesOffset (c : LessonContent) : ℕ :=
  2 + c.keyTerms.length / 4 - 1 + contentExceptSecond c + 1

/-- The `slide_count_offset` of `create_quiz_slides`, `create_discussion_slides`
and `create_further_readings_slides`. -/
def quizOffset (c : LessonContent) : ℕ :=
  2 + c.keyTerms.length / 4 - 1 + contentExceptSecond c
    + 2 * c.activities.length + 1

/-- The `slide_count_offset` of `create_facilitation_notes_slide`. -/
def facilitationOffset (c : LessonContent) : ℕ :=
  2 + c.keyTerms.length / 4 - 1 + contentExceptSecond c
    + 2 * c.activities.length + 1 + c.furtherReadings.length / 2

/-- The title slide (`create_title_slide`) carries no footer. -/
def titleFooters : List (Option ℕ) := [none]

/-- Footer numbers of the agenda slides: `create_agenda_slide` always emits
exactly `slides_needed` slides, the `slide_idx`-th printing `slide_idx + 2`. -/
def agendaFooters (F : ℕ) (c : LessonContent) : List (Option ℕ) :=
  (List.range (builderAgendaSlides F c)).map (fun k => some (k + 2))

/-- The slide of `create_learning_outcomes_slide` prints the literal footer number 1. -/
def learningOutcomesFooters : List (Option ℕ) := [some 1]

/-- Footer numbers of `create_key_terms_slide`: no slides when there are no
terms, otherwise `ceil(terms / 4)` slides printing `slide_idx + 2`. -/
def keyTermsFooters (c : LessonContent) : List (Option ℕ) :=
  if c.keyTerms.isEmpty then []
  else (List.range ((c.keyTerms.length + 4 - 1) / 4)).map (fun k => some (k + 2))

/-- Footer numbers of `create_content_slides`: list-index 1 is skipped, the
offset is `2 + len(keyTerms) // 4` and the printed number is
`offset + adjusted_idx + 1`. -/
def contentFooters (c : LessonContent) : List (Option ℕ) :=
  if c.slides.isEmpty then []
  else
    (List.range c.slides.length).filterMap fun idx =>
      if idx = 1 then none
      else some (some (2 + c.keyTerms.length / 4
        + (if idx < 1 then idx else idx - 1) + 1))

/-- Footer numbers of `create_activity_slides`: two slides per activity,
printing `offset + 2 * act_idx + 1` and `offset + 2 * act_idx + 2`. -/
def activityFooters (c : LessonContent) : List (Option ℕ) :=
  if c.activities.isEmpty then []
  else
    (List.range c.activities.length).flatMap fun i =>
      [some (activitiesOffset c + 2 * i + 1), some (activitiesOffset c + 2 * i + 2)]

/-- Per-question footer numbers of `create_quiz_slides`: each optioned
question yields a question slide and an answer slide numbered
`offset + quiz_slide_count` with the running count incremented twice. -/
def quizQuestionNumbers (off : ℕ) : ℕ → List Question → List (Option ℕ) × ℕ
  | cnt, [] => ([], cnt)
  | cnt, q :: qs =>
    if q.options.isEmpty then quizQuestionNumbers off cnt qs
    else
      let r := quizQuestionNumbers off (cnt + 2) qs
      (some (off + cnt + 1) :: some (off + cnt + 2) :: r.1, r.2)

/-- The idea loop of `create_quiz_slides` (quiz-typed ideas only, running
`quiz_slide_count` threaded across ideas). -/
def quizIdeaNumbers (off : ℕ) : ℕ → List AssessmentIdea → List (Option ℕ)
  | _, [] => []
  | cnt, idea :: rest =>
    if quizTyped idea then
      let r := quizQuestionNumbers off cnt idea.exampleQuestions
      r.1 ++ quizIdeaNumbers off r.2 rest
    else quizIdeaNumbers off cnt rest

/-- Footer numbers of `create_quiz_slides`. -/
def quizFooters (c : LessonContent) : List (Option ℕ) :=
  quizIdeaNumbers (quizOffset c) 0 c.assessmentIdeas

/-- Per-question footer numbers of `create_discussion_slides`: every
question yields a question slide and a guidance slide. -/
def discussionQuestionNumbers (base : ℕ) : ℕ → List Question → List (Option ℕ) × ℕ
  | cnt, [] => ([], cnt)
  | cnt, _ :: qs =>
    let r := discussionQuestionNumbers base (cnt + 2) qs
    (some (base + cnt + 1) :: some (base + cnt + 2) :: r.1, r.2)

/-- The idea loop of `create_discussion_slides` (discussion-typed ideas,
running `discussion_slide_count` threaded across ideas). -/
def discussionIdeaNumbers (base : ℕ) : ℕ → List AssessmentIdea → List (Option ℕ)
  | _, [] => []
  | cnt, idea :: rest =>
    if discussionTyped idea then
      let r := discussionQuestionNumbers base cnt idea.exampleQuestions
      r.1 ++ discussionIdeaNumbers base r.2 rest
    else discussionIdeaNumbers base cnt rest

/-- Footer numbers of `create_discussion_slides`: the printed number is
`slide_count_offset + quiz_count + discussion_slide_count`. -/
def discussionFooters (c : LessonContent) : List (Option ℕ) :=
  discussionIdeaNumbers (quizOffset c + totalQuizSlides c.assessmentIdeas) 0
    c.assessmentIdeas

/-- Footer numbers of `create_further_readings_slides`:
`ceil(readings / 2)` slides printing
`offset + quiz_count + discussion_count + slide_idx + 1`. -/
def readingFooters (c : LessonContent) : List (Option ℕ) :=
  if c.furtherReadings.isEmpty then []
  else
    (List.range ((c.furtherReadings.length + 2 - 1) / 2)).map fun k =>
      some (quizOffset c + totalQuizSlides c.assessmentIdeas
        + totalDiscussionSlides c.assessmentIdeas + k + 1)

/-- The builder `create_facilitation_notes_slide` considers an activity only when the
extraction utility finds non-empty facilitation notes in its description. -/
def activityHasNotes (a : Activity) : Bool :=
  !(extract_facilitation_content a.description).2.1.isEmpty

/-- The `has_notes` flag of `create_facilitation_notes_slide` (and the builder's
`if facilitation_slide:` conditional). -/
def builderHasFacilitationNotes (c : LessonContent) : Bool :=
  c.activities.any activityHasNotes

/-- The overflow loop of `create_facilitation_notes_slide`: starting at
`y = 1.2`, each activity with notes adds `0.5 + 0.8` (plus `0.3` if it is
not the last activity); whenever `y` exceeds `FOOTER_Y - 0.5`, a
continuation slide is appended and `y` resets to `1.2`.  Returns the number
of continuation slides. -/
def facOverflowAux (F n : ℕ) : ℕ → ℕ → List Activity → ℕ
  | _, _, [] => 0
  | idx, y, a :: rest =>
    if activityHasNotes a then
      let y1 := y + 130 + (if idx < n - 1 then 30 else 0)
      if F - 50 < y1 then 1 + facOverflowAux F n (idx + 1) 120 rest
      else facOverflowAux F n (idx + 1) y1 rest
    else facOverflowAux F n (idx + 1) y rest

/-- Continuation-slide count of `create_facilitation_notes_slide`. -/
def facOverflow (F : ℕ) (c : LessonContent) : ℕ :=
  facOverflowAux F c.activities.length 0 120 c.activities

/-- Footer numbers of `create_facilitation_notes_slide`: nothing when no
activity has notes; otherwise each continuation slide prints
`total_slides - 1` and the final slide prints
`slide_count_offset + quiz_count + discussion_count + 1`. -/
def facilitationFooters (F : ℕ) (c : LessonContent) : List (Option ℕ) :=
  if builderHasFacilitationNotes c then
    List.replicate (facOverflow F c) (some (calculate_total_slides F c - 1)) ++
    [some (facilitationOffset c + totalQuizSlides c.assessmentIdeas
      + totalDiscussionSlides c.assessmentIdeas + 1)]
  else []

/-- Footer number of `create_closing_slide`: `build_full_presentation`
increments `total_slides` by one first when a facilitation slide was
produced. -/
def closingFooters (F : ℕ) (c : LessonContent) : List (Option ℕ) :=
  [some (calculate_total_slides F c
    + (if builderHasFacilitationNotes c then 1 else 0))]

/-- The footer numbers of the slides appended by
`builder.build_full_presentation`, in append order (`none` for the title
slide, which carries no footer). -/
def buildFooters (F : ℕ) (c : LessonContent) : List (Option ℕ) :=
  titleFooters ++ agendaFooters F c ++ learningOutcomesFooters
    ++ keyTermsFooters c ++ contentFooters c ++ activityFooters c
    ++ quizFooters c ++ discussionFooters c ++ readingFooters c
    ++ facilitationFooters F c ++ closingFooters F c

theorem clean_slide_title_nil : clean_slide_title [] = [] := rfl

theorem contentTitles_eq (c : LessonContent) :
    builderContentTitles c = counterContentTitles c := by
  unfold builderContentTitles counterContentTitles
  apply List.filterMap_congr
  intro s _
  by_cases h : s.title.isEmpty
  · have : s.title = [] := List.isEmpty_iff.mp h
    simp [h, this, clean_slide_title_nil]
  · simp [h]

theorem agendaHeights_eq (c : LessonContent) :
    agendaTotalHeight (builderAgendaItems c) =
      agendaTotalHeight (counterAgendaItems c) := by
  unfold builderAgendaItems counterAgendaItems
  rw [contentTitles_eq]
  by_cases hq : 0 < agendaQuizCount c.assessmentIdeas <;>
    by_cases hd : 0 < agendaDiscussionCount c.assessmentIdeas <;>
    by_cases hc : (counterContentTitles c).isEmpty <;>
    by_cases ha : (c.activities.map (·.title)).isEmpty <;>
    by_cases hr : c.furtherReadings.isEmpty <;>
    simp [hq, hd, hc, ha, hr, agendaTotalHeight, tLabel]

theorem builderAgendaSlides_eq (F : ℕ) (c : LessonContent) :
    builderAgendaSlides F c = counterAgendaSlides F c := by
  unfold builderAgendaSlides counterAgendaSlides
  rw [agendaHeights_eq]

theorem ceilDiv_pos (a b : ℕ) (ha : 1 ≤ a) (hb : 1 ≤ b) : 1 ≤ ceilDiv a b := by
  unfold ceilDiv
  rw [Nat.le_div_iff_mul_le hb]
  omega

theorem agendaSlides_pos (F : ℕ) (c : LessonContent) (hF : 120 < F) :
    1 ≤ counterAgendaSlides F c := by
  unfold counterAgendaSlides
  apply ceilDiv_pos _ _ _ (by omega)
  unfold counterAgendaItems agendaTotalHeight
  simp
  omega

theorem filterMap_skip1_length {b : Type} (g : ℕ → b) (n : ℕ) :
    (List.filterMap (fun idx => if idx = 1 then none else some (g idx))
      (List.range n)).length + (if 2 ≤ n then 1 else 0) = n := by
  induction n with
  | zero => simp
  | succ k ih =>
    rw [List.range_succ, List.filterMap_append, List.length_append]
    by_cases hk : k = 1
    · subst hk
      rw [if_neg (by omega)] at ih
      rw [if_pos (by omega)]
      simp
      omega
    · by_cases h2 : 2 ≤ k
      · rw [if_pos h2] at ih
        rw [if_pos (by omega)]
        simp [hk]
        omega
      · rw [if_neg h2] at ih
        rw [if_neg (by omega)]
        simp [hk]
        omega

theorem contentFooters_length (c : LessonContent) :
    (contentFooters c).length + (if 2 ≤ c.slides.length then 1 else 0)
      = c.slides.length := by
  unfold contentFooters
  by_cases h : c.slides.isEmpty
  · have h0 : c.slides.length = 0 := by simpa [List.isEmpty_iff] using h
    simp [h, h0]
  · rw [if_neg h]
    exact filterMap_skip1_length
      (fun i => some ((2 + c.keyTerms.length / 4 + if i < 1 then i else i - 1) + 1))
      c.slides.length

theorem activityFooters_length (c : LessonContent) :
    (activityFooters c).length = 2 * c.activities.length := by
  unfold activityFooters
  by_cases h : c.activities.isEmpty
  · have h0 : c.activities.length = 0 := by simpa [List.isEmpty_iff] using h
    simp [h, h0]
  · rw [if_neg h, List.length_flatMap]
    generalize c.activities.length = n
    induction n with
    | zero => simp
    | succ k ih =>
      rw [List.range_succ, List.map_append, List.sum_append, ih]
      simp [Function.comp] <;> omega

theorem quizQuestionNumbers_length (off : ℕ) (qs : List Question) :
    ∀ cnt, (quizQuestionNumbers off cnt qs).1.length
      = 2 * (qs.filter (fun q => !q.options.isEmpty)).length := by
  induction qs with
  | nil => intro cnt; simp [quizQuestionNumbers]
  | cons q rest ih =>
    intro cnt
    by_cases hq : q.options.isEmpty
    · simp [quizQuestionNumbers, hq, ih]
    · simp only [quizQuestionNumbers, hq, Bool.false_eq_true, if_false,
        List.length_cons, List.filter_cons]
      rw [ih (cnt + 2)]
      simp [hq]
      omega

theorem quizIdeaNumbers_length (off : ℕ) (ideas : List AssessmentIdea) :
    ∀ cnt, (quizIdeaNumbers off cnt ideas).length = totalQuizSlides ideas := by
  induction ideas with
  | nil => intro cnt; simp [quizIdeaNumbers, totalQuizSlides]
  | cons idea rest ih =>
    intro cnt
    by_cases hq : quizTyped idea
    · simp only [quizIdeaNumbers, hq, if_true, List.length_append]
      rw [quizQuestionNumbers_length, ih]
      simp [totalQuizSlides, hq, optionedCount]
    · simp only [quizIdeaNumbers, hq, Bool.false_eq_true, if_false]
      rw [ih cnt]
      simp [totalQuizSlides, hq]

theorem discussionQuestionNumbers_length (base : ℕ) (qs : List Question) :
    ∀ cnt, (discussionQuestionNumbers base cnt qs).1.length = 2 * qs.length := by
  induction qs with
  | nil => intro cnt; simp [discussionQuestionNumbers]
  | cons q rest ih =>
    intro cnt
    simp [discussionQuestionNumbers, ih (cnt + 2)]
    omega

theorem discussionIdeaNumbers_length (base : ℕ) (ideas : List AssessmentIdea) :
    ∀ cnt, (discussionIdeaNumbers base cnt ideas).length
      = totalDiscussionSlides ideas := by
  induction ideas with
  | nil => intro cnt; simp [discussionIdeaNumbers, totalDiscussionSlides]
  | cons idea rest ih =>
    intro cnt
    by_cases hd : discussionTyped idea
    · simp [discussionIdeaNumbers, hd, totalDiscussionSlides, List.sum_cons,
        discussionQuestionNumbers_length, ih, questionCount]
    · simp [discussionIdeaNumbers, hd, totalDiscussionSlides, List.sum_cons, ih]

/-- A lesson with a single activity and nothing else. -/
def exOneActivity : LessonContent :=
  ⟨"T".toList, [], [⟨"A".toList, "Do things".toList⟩], [], [], [], []⟩

/-- A lesson with every collection empty. -/
def exEmptyLesson : LessonContent :=
  ⟨"T".toList, [], [], [], [], [], []⟩

/-- A lesson with exactly two content slides and nothing else. -/
def exTwoContentSlides : LessonContent :=
  ⟨"T".toList, [⟨"A".toList⟩, ⟨"B".toList⟩], [], [], [], [], []⟩

/-- The starting page number the §4.4 contract prescribes for the activities
section: one plus the sum of the §4.2 slide counts of every prior section
(title 1, agenda `counterAgendaSlides`, learning outcomes 1, key terms
`ceil(terms/4)`, content one per entry).  Stated from the claim's words, for
comparison with the offsets the builders actually compute. -/
def specActivitiesStart (F : ℕ) (c : LessonContent) : ℕ :=
  1 + (1 + counterAgendaSlides F c + 1 + keyTermsSlideCount c + c.slides.length)

/-- C1: on a lesson with one activity and nothing else, the activities
builder prints footers 3 and 4, while the contract value — one plus the sum
of the §4.2 counts of the prior sections — is `3 + agenda count ≥ 4` for
every footer position `F`.  The builder's offset formula
(`2 + kt//4 - 1 + content-except-second + 1`) omits the agenda slide count
(and more), so the §4.4 contract fails on the code. -/
theorem C1_activities_offset_diverges (F : ℕ) (hF : 120 < F) :
    activityFooters exOneActivity = [some 3, some 4] ∧
    specActivitiesStart F exOneActivity = 3 + counterAgendaSlides F exOneActivity ∧
    4 ≤ specActivitiesStart F exOneActivity := by
  have h2 : keyTermsSlideCount exOneActivity = 0 := by decide
  have h3 : exOneActivity.slides.length = 0 := rfl
  refine ⟨by decide, ?_, ?_⟩
  · unfold specActivitiesStart
    omega
  · have h1 := agendaSlides_pos F exOneActivity hF
    unfold specActivitiesStart
    omega

/-- Witness for `C1_activities_offset_diverges` at the concrete footer
position 5.30. -/
theorem C1_activities_offset_diverges_witness :
    activityFooters exOneActivity = [some 3, some 4] ∧
    specActivitiesStart 530 exOneActivity
      = 3 + counterAgendaSlides 530 exOneActivity ∧
    4 ≤ specActivitiesStart 530 exOneActivity :=
  C1_activities_offset_diverges 530 (by norm_num)

theorem buildFooters_LO_entry (F : ℕ) (c : LessonContent) :
    (buildFooters F c)[builderAgendaSlides F c + 1]? = some (some 1) := by
  unfold buildFooters titleFooters learningOutcomesFooters
  simp only [List.append_assoc, List.singleton_append, List.getElem?_cons_succ]
  rw [List.getElem?_append_right (by simp [agendaFooters])]
  simp [agendaFooters]

/-- C2: in a full build the learning-outcomes slide is the
`(agenda count + 2)`-th appended slide (position at least 3 for every footer
position `F`), yet its footer always prints the literal 1, so the printed
number of the Nth rendered slide does not equal N.  (Exhibited on the empty
lesson; the hard-coded `1` in `create_learning_outcomes_slide` makes the
claim fail on every input.) -/
theorem C2_footer_position_mismatch (F : ℕ) (hF : 120 < F) :
    (buildFooters F exEmptyLesson)[builderAgendaSlides F exEmptyLesson + 1]?
      = some (some 1) ∧
    3 ≤ builderAgendaSlides F exEmptyLesson + 2 := by
  constructor
  · exact buildFooters_LO_entry F exEmptyLesson
  · have := agendaSlides_pos F exEmptyLesson hF
    rw [builderAgendaSlides_eq]
    omega

/-- Witness for `C2_footer_position_mismatch` at the concrete footer
position 5.30 (where the deck is `[none, some 2, some 1, some 4]`: the third
slide prints 1 instead of 3). -/
theorem C2_footer_position_mismatch_witness :
    (buildFooters 530 exEmptyLesson)[builderAgendaSlides 530 exEmptyLesson + 1]?
      = some (some 1) ∧
    3 ≤ builderAgendaSlides 530 exEmptyLesson + 2 :=
  C2_footer_position_mismatch 530 (by norm_num)

/-- C3 (counterexample): on a lesson with two content slides and nothing
else, the counter totals 6 but the build appends only 5 slides, and there
are no facilitation-summary overflow continuation slides, so the build does
not equal the count and the deviation is not of the allowed kind (the claim
only allows the build to exceed the count). -/
theorem C3_counterexample :
    calculate_total_slides 530 exTwoContentSlides = 6 ∧
    (buildFooters 530 exTwoContentSlides).length = 5 ∧
    facOverflow 530 exTwoContentSlides = 0 :=
  ⟨by decide, by decide, by decide⟩

/-- C3 (amended): the counter total and the appended slide count agree up to
exactly three effects: the counter counts the skipped second content slide
(`+1` whenever there are at least two content slides); the counter charges
its three-marker facilitation flag while the build appends
extraction-detected facilitation slides including their overflow
continuations.  Equivalently, for every footer position `F > 1.2`:
`appended + [2 ≤ #slides] + [counter facilitation flag]
  = total + (if extraction finds notes then overflow + 1 else 0)`. -/
theorem C3_total_agreement_corrected (F : ℕ) (c : LessonContent)
    (hF : 120 < F) :
    (buildFooters F c).length + (if 2 ≤ c.slides.length then 1 else 0)
      + (if counterHasFacilitationNotes c then 1 else 0)
      = calculate_total_slides F c
        + (if builderHasFacilitationNotes c then facOverflow F c + 1 else 0) := by
  have hag : (agendaFooters F c).length = counterAgendaSlides F c := by
    simp [agendaFooters, builderAgendaSlides_eq]
  have hkt : (keyTermsFooters c).length = keyTermsSlideCount c := by
    unfold keyTermsFooters keyTermsSlideCount
    by_cases h : c.keyTerms.isEmpty <;> simp [h]
  have hco := contentFooters_length c
  have hac := activityFooters_length c
  have hqz : (quizFooters c).length = totalQuizSlides c.assessmentIdeas :=
    quizIdeaNumbers_length _ _ 0
  have hdq : (discussionFooters c).length = totalDiscussionSlides c.assessmentIdeas :=
    discussionIdeaNumbers_length _ _ 0
  have hrd : (readingFooters c).length = readingsSlideCount c := by
    unfold readingFooters readingsSlideCount
    by_cases h : c.furtherReadings.isEmpty <;> simp [h]
  have hfa : (facilitationFooters F c).length
      = (if builderHasFacilitationNotes c then facOverflow F c + 1 else 0) := by
    unfold facilitationFooters
    by_cases h : builderHasFacilitationNotes c <;> simp [h]
  have h1 : titleFooters.length = 1 := rfl
  have hlo : learningOutcomesFooters.length = 1 := rfl
  have hcl : (closingFooters F c).length = 1 := rfl
  unfold buildFooters
  simp only [List.length_append, h1, hag, hlo, hkt, hac, hqz, hdq, hrd, hfa, hcl]
  unfold calculate_total_slides
  omega

/-- Witness for `C3_total_agreement_corrected` on the two-content-slide
lesson at footer position 5.30. -/
theorem C3_total_agreement_corrected_witness :
    (buildFooters 530 exTwoContentSlides).length
      + (if 2 ≤ exTwoContentSlides.slides.length then 1 else 0)
      + (if counterHasFacilitationNotes exTwoContentSlides then 1 else 0)
      = calculate_total_slides 530 exTwoContentSlides
        + (if builderHasFacilitationNotes exTwoContentSlides then
            facOverflow 530 exTwoContentSlides + 1 else 0) :=
  C3_total_agreement_corrected 530 exTwoContentSlides (by norm_num)

/-- Embedding of the pagination of `create_key_terms_slide`: slide `slide_idx` holds
`key_terms[slide_idx * 4 : min(slide_idx * 4 + 4, total)]`; no slides when
there are no terms. -/
def keyTermsSlides (kt : List KeyTerm) : List (List KeyTerm) :=
  if kt.isEmpty then []
  else
    (List.range ((kt.length + 4 - 1) / 4)).map
      (fun slide_idx => (kt.drop (slide_idx * 4)).take 4)

theorem chunks_flatten (n : ℕ) (l : List KeyTerm) (h : l.length ≤ 4 * n) :
    ((List.range n).map (fun k => (l.drop (k * 4)).take 4)).flatten = l := by
  induction n generalizing l with
  | zero =>
    have : l = [] := List.eq_nil_of_length_eq_zero (by omega)
    simp [this]
  | succ m ih =>
    rw [List.range_succ_eq_map]
    simp only [List.map_cons, List.flatten_cons, List.map_map]
    have hmap : ∀ k ∈ List.range m,
        ((fun k => (l.drop (k * 4)).take 4) ∘ (· + 1)) k
          = (fun k => ((l.drop 4).drop (k * 4)).take 4) k := by
      intro k _
      simp only [Function.comp]
      rw [List.drop_drop]
      congr 2
      omega
    rw [List.map_congr_left hmap]
    have hlen : (l.drop 4).length ≤ 4 * m := by
      rw [List.length_drop]
      omega
    rw [ih (l.drop 4) hlen]
    simp

/-- C5: for `N > 0` key terms the key-terms builder emits exactly
`ceil(N / 4)` slides, each holding at most 4 terms, and the concatenation of
the slides' term lists is exactly the input list (every term exactly once,
in input order; slide `k` holds terms `4k .. min(4k+4, N) - 1`). -/
theorem C5_key_terms_pagination (kt : List KeyTerm) (h : 0 < kt.length) :
    (keyTermsSlides kt).length = ceilDiv kt.length 4 ∧
    (∀ s ∈ keyTermsSlides kt, s.length ≤ 4) ∧
    (keyTermsSlides kt).flatten = kt := by
  have hne : ¬kt.isEmpty := by
    cases kt with
    | nil => simp at h
    | cons a t => simp
  refine ⟨?_, ?_, ?_⟩
  · unfold keyTermsSlides ceilDiv
    rw [if_neg hne]
    simp
  · intro s hs
    unfold keyTermsSlides at hs
    rw [if_neg hne] at hs
    simp only [List.mem_map] at hs
    obtain ⟨k, _, hk⟩ := hs
    rw [← hk, List.length_take]
    exact min_le_left _ _
  · unfold keyTermsSlides
    rw [if_neg hne]
    apply chunks_flatten
    have hd := Nat.div_add_mod (kt.length + 3) 4
    have hm : (kt.length + 3) % 4 < 4 := Nat.mod_lt _ (by omega)
    omega

/-- Witness for `C5_key_terms_pagination` on a concrete five-term list
(two slides, of four terms and one term). -/
theorem C5_key_terms_pagination_witness :
    (keyTermsSlides [⟨"a".toList, "1".toList⟩, ⟨"b".toList, "2".toList⟩,
        ⟨"c".toList, "3".toList⟩, ⟨"d".toList, "4".toList⟩,
        ⟨"e".toList, "5".toList⟩]).length
      = ceilDiv 5 4 ∧
    (∀ s ∈ keyTermsSlides [⟨"a".toList, "1".toList⟩, ⟨"b".toList, "2".toList⟩,
        ⟨"c".toList, "3".toList⟩, ⟨"d".toList, "4".toList⟩,
        ⟨"e".toList, "5".toList⟩], s.length ≤ 4) ∧
    (keyTermsSlides [⟨"a".toList, "1".toList⟩, ⟨"b".toList, "2".toList⟩,
        ⟨"c".toList, "3".toList⟩, ⟨"d".toList, "4".toList⟩,
        ⟨"e".toList, "5".toList⟩]).flatten
      = [⟨"a".toList, "1".toList⟩, ⟨"b".toList, "2".toList⟩,
        ⟨"c".toList, "3".toList⟩, ⟨"d".toList, "4".toList⟩,
        ⟨"e".toList, "5".toList⟩] :=
  C5_key_terms_pagination _ (by norm_num)

/-- An entry placed on an agenda slide by `create_agenda_slide`: a section
header text box, or an item text box. -/
inductive AgendaEntry where
  | header (title : Str)
  | item (text : Str)
deriving DecidableEq

/-- The inner `for idx, item in enumerate(items)` loop of
`create_agenda_slide`: place items while they fit (`y + 0.35 ≤ max_y`),
returning the placed items, the final `y`, and the unplaced remainder. -/
def takeItems (maxY : ℕ) : ℕ → List Str → List Str × ℕ × List Str
  | y, [] => ([], y, [])
  | y, it :: rest =>
    if maxY < y + 35 then ([], y, it :: rest)
    else
      let r := takeItems maxY (y + 35) rest
      (it :: r.1, r.2.1, r.2.2)

/-- The `while current_section_idx < len(agenda_items) and y < max_y` loop
of `create_agenda_slide`, for one slide: place a section header (0.5 high)
when it fits, then its remaining items; on item overflow stop the slide,
leaving the section with its unplaced items at the head of the pending list;
when a section completes, continue with the next section on the same
slide. -/
def fillSlide (maxY : ℕ) : ℕ → List (Str × List Str) → List AgendaEntry × List (Str × List Str)
  | _, [] => ([], [])
  | y, (t, items) :: rest =>
    if maxY ≤ y then ([], (t, items) :: rest)
    else if maxY < y + 50 then ([], (t, items) :: rest)
    else
      let r := takeItems maxY (y + 50) items
      if r.2.2.isEmpty then
        let s := fillSlide maxY r.2.1 rest
        (AgendaEntry.header t :: (r.1.map AgendaEntry.item ++ s.1), s.2)
      else
        (AgendaEntry.header t :: r.1.map AgendaEntry.item, (t, r.2.2) :: rest)

/-- The `for slide_idx in range(slides_needed)` loop of
`create_agenda_slide`: exactly `slides_needed` slides are produced, each
filled greedily from `y = 1.1` up to `max_y = FOOTER_Y - 0.3`. -/
def agendaLayoutAux (maxY : ℕ) : ℕ → List (Str × List Str) → List (List AgendaEntry)
  | 0, _ => []
  | n + 1, pending =>
    let r := fillSlide maxY 110 pending
    r.1 :: agendaLayoutAux maxY n r.2

/-- The agenda slides' placed entries for a full `create_agenda_slide`
call. -/
def agendaLayout (F : ℕ) (c : LessonContent) : List (List AgendaEntry) :=
  agendaLayoutAux (F - 30) (builderAgendaSlides F c) (builderAgendaItems c)

/-- Item text of an entry (`none` for headers). -/
def entryItemText : AgendaEntry → Option Str
  | .header _ => none
  | .item s => some s

/-- All items of a pending section list, in order. -/
def agendaAllItems (secs : List (Str × List Str)) : List Str :=
  secs.flatMap (·.2)

theorem takeItems_append (maxY : ℕ) (items : List Str) :
    ∀ y, (takeItems maxY y items).1 ++ (takeItems maxY y items).2.2 = items := by
  induction items with
  | nil => intro y; rfl
  | cons it rest ih =>
    intro y
    by_cases hy : maxY < y + 35
    · simp [takeItems, hy]
    · simp [takeItems, hy, ih (y + 35)]

theorem fillSlide_items (maxY : ℕ) (pending : List (Str × List Str)) :
    ∀ y, ((fillSlide maxY y pending).1.filterMap entryItemText)
        ++ agendaAllItems (fillSlide maxY y pending).2
      = agendaAllItems pending := by
  induction pending with
  | nil => intro y; rfl
  | cons sec rest ih =>
    intro y
    obtain ⟨t, items⟩ := sec
    by_cases h1 : maxY ≤ y
    · simp [fillSlide, h1]
    · by_cases h2 : maxY < y + 50
      · simp [fillSlide, h1, h2]
      · by_cases h3 : (takeItems maxY (y + 50) items).2.2.isEmpty
        · have hitems : (takeItems maxY (y + 50) items).1 = items := by
            have := takeItems_append maxY items (y + 50)
            rw [List.isEmpty_iff.mp h3] at this
            simpa using this
          simp only [fillSlide, if_neg (by omega : ¬maxY ≤ y),
            if_neg (by omega : ¬maxY < y + 50), h3, if_pos]
          simp only [List.filterMap_cons, entryItemText, List.filterMap_append,
            List.filterMap_map]
          rw [show (entryItemText ∘ AgendaEntry.item) = some from rfl,
            List.filterMap_some]
          rw [List.append_assoc, ih]
          simp [agendaAllItems, hitems]
        · simp only [fillSlide, if_neg (by omega : ¬maxY ≤ y),
            if_neg (by omega : ¬maxY < y + 50), if_neg h3]
          simp only [List.filterMap_cons, entryItemText, List.filterMap_map]
          rw [show (entryItemText ∘ AgendaEntry.item) = some from rfl,
            List.filterMap_some]
          simp only [agendaAllItems, List.flatMap_cons]
          rw [← List.append_assoc, takeItems_append]

theorem agendaLayoutAux_rendered (maxY : ℕ) (n : ℕ) :
    ∀ pending, ∃ rest,
      ((agendaLayoutAux maxY n pending).flatten.filterMap entryItemText) ++ rest
        = agendaAllItems pending := by
  induction n with
  | zero =>
    intro pending
    exact ⟨agendaAllItems pending, by simp [agendaLayoutAux]⟩
  | succ m ih =>
    intro pending
    obtain ⟨rest, hrest⟩ := ih (fillSlide maxY 110 pending).2
    refine ⟨rest, ?_⟩
    simp only [agendaLayoutAux, List.flatten_cons, List.filterMap_append,
      List.append_assoc]
    rw [hrest, fillSlide_items]

/-- C4 (amended): across the agenda slides, the rendered items form a
prefix of the concatenation of the agenda sections' item lists in order —
every item is rendered at most once, never split or duplicated, in input
order, with a section's remaining items resumed at the top of the next
slide; items can only be missing from the tail (when the precomputed slide
count is too small).  A section's header, however, is placed again on every
slide on which the section is begun or resumed. -/
theorem C4_agenda_items_in_order (F : ℕ) (c : LessonContent) :
    ∃ n, ((agendaLayout F c).flatten.filterMap entryItemText)
      = (agendaAllItems (builderAgendaItems c)).take n := by
  obtain ⟨rest, h⟩ :=
    agendaLayoutAux_rendered (F - 30) (builderAgendaSlides F c) (builderAgendaItems c)
  refine ⟨((agendaLayout F c).flatten.filterMap entryItemText).length, ?_⟩
  unfold agendaLayout
  rw [← h, List.take_left]

/-- A lesson whose agenda Main Content section spans three agenda slides
(twenty content slides). -/
def exAgendaSpan : LessonContent :=
  ⟨"T".toList, List.replicate 20 ⟨"X".toList⟩, [], [], [], [], []⟩

/-- Recognizes the Main Content section header entry. -/
def isMainContentHeader : AgendaEntry → Bool
  | .header t => t == "mainContent".toList
  | _ => false

/-- C4 (counterexample): on `exAgendaSpan` (at footer position 5.30) the
agenda builder renders all 22 items, but places the Main Content section
header three times — once on each slide the section touches — refuting the
claim that each section's header is placed exactly once. -/
theorem C4_counterexample :
    ((agendaLayout 530 exAgendaSpan).flatten.countP isMainContentHeader) = 3 ∧
    ((agendaLayout 530 exAgendaSpan).flatten.filterMap entryItemText).length = 22 :=
  ⟨by decide, by decide⟩

/-- Python `p[:i]` where `i = p.rfind('/') + 1`: the path up to and including the
last slash (empty when there is no slash) — the first step of posix
`os.path.dirname`. -/
def upToLastSlash (p : Str) : Str :=
  (p.reverse.dropWhile (fun c => c ≠ '/')).reverse

/-- Python `head.rstrip('/')`. -/
def rstripSlashes (s : Str) : Str :=
  (s.reverse.dropWhile (fun c => c = '/')).reverse

/-- Posix `os.path.dirname`: the part before the last slash, with trailing
slashes stripped unless the head consists only of slashes. -/
def dirname (p : Str) : Str :=
  let head := upToLastSlash p
  if !head.isEmpty && !(head.all (fun c => c = '/')) then rstripSlashes head
  else head

/-- The security gate of `builder.create_pptx`:
`is_temp = parent.startswith(tempdir)` with `parent = dirname(path)`, and
`is_out = path.startswith(allowed_output)` — plain string-prefix checks. -/
def pptxPathAllowed (tempDir allowedOutput path : Str) : Bool :=
  isPre tempDir (dirname path) || isPre allowedOutput path

/-- Embedding of `builder.create_pptx`, over already-absolute normalized paths (Python's
`os.path.abspath` is the identity on those; the temp directory and the
resolved `backend/output` directory are environment values, passed in as
parameters).  When the gate fails it raises before building — no slide is
created and nothing is saved; otherwise the full presentation is built and
saved. -/
def create_pptx (tempDir allowedOutput : Str) (F : ℕ) (c : LessonContent)
    (path : Str) : Except Str (List (Option ℕ)) :=
  if pptxPathAllowed tempDir allowedOutput path then
    Except.ok (buildFooters F c)
  else
    Except.error "Security violation: Output path must be in allowed directories".toList

/-- The claim's notion of an output path lying inside a directory: the path
is the directory followed by a slash and a (possibly nested) remainder. -/
def insideDir (d path : Str) : Prop := ∃ rest, path = d ++ '/' :: rest

theorem isPre_self_append (x y : Str) : isPre x (x ++ y) = true := by
  induction x with
  | nil => rfl
  | cons a as ih => simp [isPre, ih]

theorem exists_of_isPre (p s : Str) (h : isPre p s = true) :
    ∃ r, s = p ++ r := by
  induction p generalizing s with
  | nil => exact ⟨s, rfl⟩
  | cons a as ih =>
    cases s with
    | nil => simp [isPre] at h
    | cons b bs =>
      simp only [isPre, Bool.and_eq_true, decide_eq_true_eq] at h
      obtain ⟨r, hr⟩ := ih bs h.2
      exact ⟨r, by simp [h.1, hr]⟩

theorem insideDir_iff (d p : Str) :
    insideDir d p ↔ isPre (d ++ ['/']) p = true := by
  constructor
  · rintro ⟨rest, hrest⟩
    rw [hrest, show d ++ '/' :: rest = (d ++ ['/']) ++ rest by simp]
    exact isPre_self_append _ _
  · intro h
    obtain ⟨r, hr⟩ := exists_of_isPre _ _ h
    exact ⟨r, by simp [hr]⟩

theorem dropWhile_append_of_all {p : Char → Bool} (a b : Str)
    (h : ∀ x ∈ a, p x = true) :
    (a ++ b).dropWhile p = b.dropWhile p := by
  induction a with
  | nil => rfl
  | cons x xs ih =>
    simp only [List.cons_append, List.dropWhile_cons,
      h x (List.mem_cons_self x xs), if_pos]
    exact ih (fun y hy => h y (List.mem_cons_of_mem x hy))

theorem dirname_of_flat_file (u fname : Str) (ch : Char) (hch : ch ≠ '/')
    (hf : ('/' : Char) ∉ fname) :
    dirname ((u ++ [ch]) ++ '/' :: fname) = u ++ [ch] := by
  have hup : upToLastSlash ((u ++ [ch]) ++ '/' :: fname)
      = (u ++ [ch]) ++ ['/'] := by
    unfold upToLastSlash
    rw [List.reverse_append]
    rw [show ('/' :: fname).reverse = fname.reverse ++ ['/'] by simp]
    rw [List.append_assoc]
    rw [dropWhile_append_of_all _ _ (fun x hx => by
      simp only [decide_eq_true_eq]
      intro hxe
      exact hf (by rw [← hxe]; exact (List.mem_reverse).mp hx))]
    simp
  unfold dirname
  rw [hup]
  rw [if_pos (by simp [hch])]
  unfold rstripSlashes
  rw [List.reverse_append]
  simp [hch]

theorem isPre_refl (x : Str) : isPre x x = true := by
  have := isPre_self_append x []
  simpa using this

/-- C8 (amended): the output-path check of `create_pptx` is a string-prefix
gate.  (a) Whenever the gate fails, `create_pptx` raises the security error
before any slide is built.  (b) A path strictly inside the allowed output
directory always passes.  (c) A path naming a file directly inside the temp
directory passes (provided the temp directory path does not end in a
slash).  The gate is only a prefix check, so paths resolving outside the
allow-listed directories can still pass (see the counterexample). -/
theorem C8_path_gate (tempDir allowedOutput : Str) (F : ℕ) (c : LessonContent)
    (path : Str) :
    (pptxPathAllowed tempDir allowedOutput path = false →
      create_pptx tempDir allowedOutput F c path
        = Except.error
          "Security violation: Output path must be in allowed directories".toList) ∧
    (insideDir allowedOutput path →
      create_pptx tempDir allowedOutput F c path
        = Except.ok (buildFooters F c)) ∧
    (∀ (u fname : Str) (ch : Char), ch ≠ '/' → ('/' : Char) ∉ fname →
      tempDir = u ++ [ch] →
      create_pptx tempDir allowedOutput F c (tempDir ++ '/' :: fname)
        = Except.ok (buildFooters F c)) := by
  refine ⟨?_, ?_, ?_⟩
  · intro h
    unfold create_pptx
    rw [h]
    rfl
  · intro h
    obtain ⟨rest, hrest⟩ := h
    have : isPre allowedOutput path = true := by
      rw [hrest, show allowedOutput ++ '/' :: rest
        = allowedOutput ++ ('/' :: rest) from rfl]
      exact isPre_self_append _ _
    unfold create_pptx pptxPathAllowed
    rw [this, Bool.or_true, if_pos rfl]
  · intro u fname ch hch hf ht
    have hdir : dirname (tempDir ++ '/' :: fname) = tempDir := by
      rw [ht]
      exact dirname_of_flat_file u fname ch hch hf
    unfold create_pptx pptxPathAllowed
    rw [hdir, isPre_refl, Bool.true_or, if_pos rfl]

/-- A path that resolves outside both allow-listed directories but shares
the allowed output directory's string prefix. -/
def exEvilPath : Str := "/a/output_evil/f.pptx".toList

/-- C8 (counterexample): with allowed output directory `/a/output` and temp
directory `/tmp`, the path `/a/output_evil/f.pptx` lies inside neither
allow-listed directory (and is neither directory itself), yet `create_pptx`
accepts it and builds — the claim that every outside path raises a security
error is false on the code's prefix check. -/
theorem C8_counterexample :
    (create_pptx "/tmp".toList "/a/output".toList 530 exEmptyLesson
      exEvilPath).isOk = true ∧
    ¬ insideDir "/a/output".toList exEvilPath ∧
    ¬ insideDir "/tmp".toList exEvilPath ∧
    exEvilPath ≠ "/a/output".toList ∧
    exEvilPath ≠ "/tmp".toList := by
  refine ⟨by decide, ?_, ?_, by decide, by decide⟩
  · rw [insideDir_iff]
    decide
  · rw [insideDir_iff]
    decide

/-- Witness for `C8_path_gate`: a path inside the output directory and a
path directly inside the temp directory are both accepted, and a path
failing the gate is rejected with the security error. -/
theorem C8_path_gate_witness :
    create_pptx "/tmp".toList "/a/output".toList 530 exEmptyLesson
      "/a/output/deck.pptx".toList
        = Except.ok (buildFooters 530 exEmptyLesson) ∧
    create_pptx "/tmp".toList "/a/output".toList 530 exEmptyLesson
      ("/tmp".toList ++ '/' :: "d.pptx".toList)
        = Except.ok (buildFooters 530 exEmptyLesson) ∧
    create_pptx "/tmp".toList "/a/output".toList 530 exEmptyLesson
      "/b/c.pptx".toList
        = Except.error
          "Security violation: Output path must be in allowed directories".toList :=
  ⟨(C8_path_gate "/tmp".toList "/a/output".toList 530 exEmptyLesson
      "/a/output/deck.pptx".toList).2.1 ⟨"deck.pptx".toList, by decide⟩,
   (C8_path_gate "/tmp".toList "/a/output".toList 530 exEmptyLesson
      ("/tmp".toList ++ '/' :: "d.pptx".toList)).2.2 "/tm".toList "d.pptx".toList
      'p' (by decide) (by decide) (by decide),
   (C8_path_gate "/tmp".toList "/a/output".toList 530 exEmptyLesson
      "/b/c.pptx".toList).1 (by decide)⟩

/-- An assessment idea whose type contains both "quiz" and "discussion";
one of its two questions has options. -/
def exBothIdea : AssessmentIdea :=
  ⟨"Quiz and Discussion".toList,
   [⟨"Q1".toList, ["x".toList, "y".toList], "x".toList, "".toList⟩,
    ⟨"Q2".toList, [], "g".toList, "".toList⟩]⟩

/-- C10: the quiz and discussion classifications are independent, not
mutually exclusive.  (a) For an idea whose type contains both "quiz" and
"discussion", the counter's quiz pass charges two slides per optioned
question and its discussion pass additionally charges two slides per
question unconditionally.  (b) In a full build the quiz section renders
exactly the counter's quiz-pass slide count and the discussion section
exactly the counter's discussion-pass slide count, so a both-typed idea's
questions are rendered in both sections. -/
theorem C10_quiz_discussion_independent :
    (∀ idea : AssessmentIdea, quizTyped idea = true →
      discussionTyped idea = true →
      totalQuizSlides [idea] = 2 * optionedCount idea ∧
      totalDiscussionSlides [idea] = 2 * questionCount idea) ∧
    (∀ c : LessonContent,
      (quizFooters c).length = totalQuizSlides c.assessmentIdeas ∧
      (discussionFooters c).length = totalDiscussionSlides c.assessmentIdeas) := by
  constructor
  · intro idea hq hd
    constructor
    · simp [totalQuizSlides, hq]
    · simp [totalDiscussionSlides, hd]
  · intro c
    exact ⟨quizIdeaNumbers_length _ _ 0, discussionIdeaNumbers_length _ _ 0⟩

/-- Witness for `C10_quiz_discussion_independent` on a concrete idea typed
"Quiz and Discussion" with one optioned and one option-less question. -/
theorem C10_quiz_discussion_independent_witness :
    (totalQuizSlides [exBothIdea] = 2 * optionedCount exBothIdea ∧
      totalDiscussionSlides [exBothIdea] = 2 * questionCount exBothIdea) ∧
    ((quizFooters exEmptyLesson).length
        = totalQuizSlides exEmptyLesson.assessmentIdeas ∧
      (discussionFooters exEmptyLesson).length
        = totalDiscussionSlides exEmptyLesson.assessmentIdeas) :=
  ⟨C10_quiz_discussion_independent.1 exBothIdea (by decide) (by decide),
   C10_quiz_discussion_independent.2 exEmptyLesson⟩

/-- Witness for `C9_estimate_text_height_monotone` at concrete inputs
(text lengths 3 and 7, font size 20, width 8.6). -/
theorem C9_estimate_text_height_monotone_witness :
    estimate_text_height 3 20 (43 / 5) ≤ estimate_text_height 7 20 (43 / 5) :=
  C9_estimate_text_height_monotone 3 7 20 (43 / 5) (by norm_num) (by norm_num)

end Pptx
